import Mathlib

/-!
# Webcuts trigger pipeline: verification of the specification claims

Shallow embedding of the WebcutsServer trigger-authorization pipeline:
the rate limiter (`DatabaseServiceV2.checkRateLimit`, identical logic in
`DatabaseService.checkRateLimit`), the daily analytics upsert
(`updateAnalytics`, both service versions), the crypto helpers
(`verifyHMAC`, `verifyPassword`, `encryptData`/`decryptData`), the webhook
gate (`validateWebhookAccess`) and the orchestrator
(`handleWebhookRequestV2`), together with the `webhook_executions`
insert trigger `update_shortcut_trigger_count` from the schema.

JavaScript numbers that can go negative are modelled as `Int`; row counts
as `Nat`.  Fallible JavaScript (uncaught exceptions such as `TypeError`)
is modelled with `Option`/`Except`, `none`/`.error` standing for a thrown
exception.
-/

namespace Webcuts

/-! ## Rate limiter

`checkRateLimit(identifier, windowMinutes, maxRequests)` in
`services/database_v2.js` (and the idential `services/database.js`
version).  The database state relevant to one call is the
`rate_limits` row for `(identifier, windowStart)`: `none` when no row
exists, `some c` when a row with `request_count = c` exists. -/

structure RateLimitResult where
  allowed : Bool
  remaining : Int
deriving DecidableEq, Repr

/-- One `checkRateLimit` call on the row for the current window.
Returns the result object and the new row state.
- no row: insert a row with `request_count = 1`, allow, `remaining = maxRequests - 1`;
- `request_count >= maxRequests`: deny with `remaining = 0`;
- otherwise increment and allow with `remaining = maxRequests - request_count - 1`. -/
def checkRateLimit (row : Option Nat) (maxRequests : Int) :
    RateLimitResult × Option Nat :=
  match row with
  | none => ({ allowed := true, remaining := maxRequests - 1 }, some 1)
  | some c =>
    if maxRequests ≤ (c : Int) then
      ({ allowed := false, remaining := 0 }, some c)
    else
      ({ allowed := true, remaining := maxRequests - c - 1 }, some (c + 1))

/-- `windowStart.setMinutes(Math.floor(min / windowMinutes) * windowMinutes)`:
the window an instant (identified by its minute) falls into. -/
def windowStart (minute windowMinutes : Nat) : Nat :=
  minute / windowMinutes * windowMinutes

/-- The rate-limit store for one identifier: the `request_count` row per
window start. -/
def RateStore : Type := Nat → Option Nat

def RateStore.empty : RateStore := fun _ => none

/-- One `checkRateLimit` call arriving at a given minute against the store. -/
def checkRateLimitAt (store : RateStore) (minute windowMinutes : Nat)
    (maxRequests : Int) : RateLimitResult × RateStore :=
  let w := windowStart minute windowMinutes
  let (res, row) := checkRateLimit (store w) maxRequests
  (res, fun w' => if w' = w then row else store w')

/-- Sequential `checkRateLimit` calls at the given minutes; returns the
per-call results. -/
def runRateCalls (store : RateStore) (minutes : List Nat)
    (windowMinutes : Nat) (maxRequests : Int) : List RateLimitResult :=
  match minutes with
  | [] => []
  | m :: rest =>
    let (r, store') := checkRateLimitAt store m windowMinutes maxRequests
    r :: runRateCalls store' rest windowMinutes maxRequests

/-! ## Daily analytics upsert

`updateAnalytics(webhookId, success, responseTime)`.  The state relevant
to one call is the `analytics` row for `(webhookId, date)`. -/

structure AnalyticsRow where
  trigger_count : Nat
  success_count : Nat
  failure_count : Nat
  avg_response_time_ms : Nat
deriving DecidableEq, Repr

/-- `DatabaseServiceV2.updateAnalytics` (`services/database_v2.js`).
The UPDATE branch computes the running average in SQL with integer
(truncating) division. -/
def updateAnalyticsV2 (existing : Option AnalyticsRow) (success : Bool)
    (responseTime : Nat) : AnalyticsRow :=
  match existing with
  | some r =>
    { trigger_count := r.trigger_count + 1
      success_count := r.success_count + (if success then 1 else 0)
      failure_count := r.failure_count + (if success then 0 else 1)
      avg_response_time_ms :=
        (r.avg_response_time_ms * r.trigger_count + responseTime) /
          (r.trigger_count + 1) }
  | none =>
    { trigger_count := 1
      success_count := if success then 1 else 0
      failure_count := if success then 0 else 1
      avg_response_time_ms := responseTime }

/-- `DatabaseService.updateAnalytics` (`src/services/database.js`).
The UPDATE branch computes the running average in JavaScript with
`Math.round`; `Math.round x = ⌊x + 1/2⌋` is `(2*a + n) / (2*n)` in
integer arithmetic for the nonnegative quotient `a / n` here. -/
def updateAnalyticsV1 (existing : Option AnalyticsRow) (success : Bool)
    (responseTime : Nat) : AnalyticsRow :=
  match existing with
  | some r =>
    let newTriggerCount := r.trigger_count + 1
    { trigger_count := newTriggerCount
      success_count := r.success_count + (if success then 1 else 0)
      failure_count := r.failure_count + (if success then 0 else 1)
      avg_response_time_ms :=
        (2 * (r.avg_response_time_ms * r.trigger_count + responseTime) +
            newTriggerCount) / (2 * newTriggerCount) }
  | none =>
    { trigger_count := 1
      success_count := if success then 1 else 0
      failure_count := if success then 0 else 1
      avg_response_time_ms := responseTime }

/-- The analytics partition invariant. -/
def analyticsInv (r : AnalyticsRow) : Prop :=
  r.trigger_count = r.success_count + r.failure_count

instance (r : AnalyticsRow) : Decidable (analyticsInv r) := by
  unfold analyticsInv; infer_instance

/-! ## JavaScript parsing helpers

The crypto code parses hex strings with `signature.match(/.{2}/g)` and
`parseInt(chunk, 16)`, then builds a `Uint8Array` from the results.
These helpers model that behaviour exactly:
- `match(/.{2}/g)` splits into consecutive 2-character chunks, drops a
  trailing odd character, and returns `null` (here `none`) when there is
  no match at all (input shorter than 2 characters);
- `parseInt(s, 16)` skips leading whitespace, accepts an optional sign
  and an optional `0x`/`0X` prefix, reads the longest hex-digit prefix,
  and yields `NaN` (here `none`) when no digit is read;
- `Uint8Array.from` coerces each value with ToUint8: `NaN` to `0`, an
  integer to its value modulo 256 (nonnegative representative). -/

def isHexDigit (c : Char) : Bool :=
  ('0' ≤ c && c ≤ '9') || ('a' ≤ c && c ≤ 'f') || ('A' ≤ c && c ≤ 'F')

def hexDigitVal (c : Char) : Nat :=
  if '0' ≤ c && c ≤ '9' then c.toNat - '0'.toNat
  else if 'a' ≤ c && c ≤ 'f' then c.toNat - 'a'.toNat + 10
  else c.toNat - 'A'.toNat + 10

/-- `parseInt(s, 16)`; `none` models `NaN`. -/
def jsParseIntHex (s : List Char) : Option Int :=
  let s := s.dropWhile (fun c => c = ' ' || c = '\t' || c = '\n' || c = '\r')
  let (sign, s) : Int × List Char :=
    match s with
    | '-' :: rest => (-1, rest)
    | '+' :: rest => (1, rest)
    | rest => (1, rest)
  let s :=
    match s with
    | '0' :: c :: rest => if c = 'x' || c = 'X' then rest else '0' :: c :: rest
    | rest => rest
  let digits := s.takeWhile isHexDigit
  if digits.isEmpty then none
  else some (sign * ((digits.foldl (fun acc c => 16 * acc + hexDigitVal c) 0 : Nat) : Int))

/-- ToUint8 as applied by `Uint8Array.from`: `NaN` becomes 0, integers
are taken modulo 256. -/
def jsToUint8 (v : Option Int) : Nat :=
  match v with
  | none => 0
  | some n => (n % 256).toNat

/-- One 2-character chunk of a hex string to a byte:
`parseInt(chunk, 16)` followed by the `Uint8Array` coercion. -/
def jsChunkByte (p : Char × Char) : Nat :=
  jsToUint8 (jsParseIntHex [p.1, p.2])

/-- Consecutive 2-character chunks; a trailing odd character is dropped
(`/.{2}/g` matching). -/
def chunkPairs : List Char → List (Char × Char)
  | [] => []
  | [_] => []
  | c1 :: c2 :: rest => (c1, c2) :: chunkPairs rest

/-- `s.match(/.{2}/g)`: `null` (`none`) when there is no match. -/
def jsMatchPairs (cs : List Char) : Option (List (Char × Char)) :=
  match chunkPairs cs with
  | [] => none
  | p :: ps => some (p :: ps)

/-! ## Hex encoding of byte lists

`bytesToHex` models `b.toString(16).padStart(2, '0')` joined over the
array (`utils/crypto.js`); `hexToBytes` models the
`parseInt(hex.substr(i * 2, 2), 16)` loop. -/

/-- One hex digit as produced by `Number.prototype.toString(16)`
(lowercase). -/
def hexCharJS (n : Nat) : Char :=
  if n < 10 then Char.ofNat (48 + n) else Char.ofNat (87 + n)

/-- `b.toString(16).padStart(2, '0')` for a byte `b < 256`. -/
def byteToHex (b : Nat) : List Char :=
  [hexCharJS (b / 16), hexCharJS (b % 16)]

def bytesToHexChars (bs : List Nat) : List Char :=
  (bs.map byteToHex).flatten

def bytesToHex (bs : List Nat) : String :=
  ⟨bytesToHexChars bs⟩

def hexToBytesChars (cs : List Char) : List Nat :=
  (chunkPairs cs).map jsChunkByte

def hexToBytes (s : String) : List Nat :=
  hexToBytesChars s.data

/-- JavaScript `s.split(sep)` for a single-character separator (no
limit argument): always at least one group, empty groups kept. -/
def jsSplitChars (sep : Char) : List Char → List (List Char)
  | [] => [[]]
  | c :: rest =>
    let r := jsSplitChars sep rest
    if c = sep then [] :: r
    else
      match r with
      | [] => [[c]]
      | g :: gs => (c :: g) :: gs

def jsSplit (sep : Char) (s : String) : List String :=
  (jsSplitChars sep s.data).map fun cs => ⟨cs⟩

/-! ## encryptData / decryptData

`encryptData(plaintext, encryptionKey)` and
`decryptData(encryptedHex, encryptionKey)` (`utils/crypto.js`).  The
AES-GCM primitive of `crypto.subtle` is an external collaborator,
abstracted as an authenticated cipher: `enc key iv data` is the
ciphertext-with-tag, `dec key iv ct` recovers the data or fails
(`none`) when authentication fails, which is exactly the
`crypto.subtle.decrypt` rejection.  Plaintext strings are modelled by
their UTF-8 byte lists (`TextEncoder`/`TextDecoder` round-trip).
`encryptData` draws a fresh random 12-byte IV per call; the IV is a
parameter here, quantifying over every possible draw. -/

structure AEAD where
  enc : List Nat → List Nat → List Nat → List Nat
  dec : List Nat → List Nat → List Nat → Option (List Nat)

/-- `encryptData`: encrypt under a fresh IV and return
`hex(iv ‖ ciphertext)`. -/
def encryptData (A : AEAD) (plaintext : List Nat) (encryptionKey : String)
    (iv : List Nat) : String :=
  bytesToHex (iv ++ A.enc (hexToBytes encryptionKey) iv plaintext)

/-- `decryptData`: split the blob into the first 12 bytes (IV) and the
rest (ciphertext), then authenticated-decrypt. -/
def decryptData (A : AEAD) (encryptedHex : String)
    (encryptionKey : String) : Option (List Nat) :=
  let encrypted := hexToBytes encryptedHex
  A.dec (hexToBytes encryptionKey) (encrypted.take 12) (encrypted.drop 12)

/-- A concrete authenticated cipher used to instantiate the abstract
AES-GCM collaborator in witnesses: the tag is a checksum of key, IV and
data. -/
def toyEnc (k iv d : List Nat) : List Nat :=
  d ++ [(k.sum + iv.sum + d.sum) % 256]

def toyDec (k iv c : List Nat) : Option (List Nat) :=
  if c = toyEnc k iv c.dropLast then some c.dropLast else none

def toyAEAD : AEAD := ⟨toyEnc, toyDec⟩

/-! ## verifyHMAC

`verifyHMAC(message, signature, secret)` (`utils/crypto.js`, identical
in both source versions).  The HMAC-SHA256 primitive of
`crypto.subtle` is an external collaborator, abstracted as a function
`mac : secret → message → byte list`; `crypto.subtle.verify` compares
the supplied signature bytes with the freshly computed MAC and returns
`false` on any difference, including a length mismatch.  The result
`none` models the uncaught `TypeError` raised by `null.map` when
`signature.match(/.{2}/g)` returns `null`. -/

def verifyHMAC (mac : String → String → List Nat)
    (message signature secret : String) : Option Bool :=
  match jsMatchPairs signature.data with
  | none => none
  | some chunks => some (decide (chunks.map jsChunkByte = mac secret message))

/-- A concrete stand-in for HMAC-SHA256: a 32-byte MAC. -/
def constMac32 : String → String → List Nat := fun _ _ => List.replicate 32 0

/-! ## verifyPassword

`AuthService.verifyPassword(password, storedHash)`
(`src/services/auth.js`).  The PBKDF2 derivation of `crypto.subtle` is
an external collaborator, abstracted as
`kdf : password → salt bytes → derived bytes`.  Errors:
- an algorithm tag other than `pbkdf2` throws
  `Error('Unsupported hash algorithm')`;
- a missing salt component makes `saltHex.match` a `TypeError` on
  `undefined`; a salt shorter than 2 characters makes
  `saltHex.match(/.{2}/g)` return `null` and `null.map` a `TypeError`.
The final comparison `computedHashHex === hashHex` is `false` when the
hash component is absent (`undefined`). -/

inductive PwError where
  | unsupportedAlgorithm
  | typeError
deriving DecidableEq, Repr

def verifyPassword (kdf : String → List Nat → List Nat)
    (password storedHash : String) : Except PwError Bool :=
  let parts := jsSplit ':' storedHash
  let algorithm := parts.headD ""
  if algorithm = "pbkdf2" then
    match parts[1]? with
    | none => .error .typeError
    | some saltHex =>
      match jsMatchPairs saltHex.data with
      | none => .error .typeError
      | some chunks =>
        let salt := chunks.map jsChunkByte
        let computedHashHex := bytesToHex (kdf password salt)
        .ok (decide (parts[2]? = some computedHashHex))
  else .error .unsupportedAlgorithm

/-- A concrete stand-in for the PBKDF2 derivation: 32 derived bytes. -/
def zeroKdf : String → List Nat → List Nat := fun _ _ => List.replicate 32 0

/-! ## Webhook gate

`validateWebhookAccess(request, env, webhookId)` (`middleware/auth.js`)
and the client-IP helpers.  A webhook row is the result of
`DatabaseServiceV2.getShortcutByWebhook` (join of `shortcuts`,
`devices`, `users`, all `is_active = 1`); its mutable `trigger_count`
is passed separately so the pipeline state can carry it.  `allowed_ips`
is a JSON text column: `none` models SQL `NULL` (or the falsy empty
string); `some ips` models well-formed JSON arrays of strings. -/

structure WebhookRow where
  webhook_id : String
  expires_at : Option Int
  max_uses : Option Nat
  allowed_ips : Option (List String)
  webhook_secret : Option String
deriving DecidableEq, Repr

/-- The request headers and body consumed by the trigger pipeline. -/
structure Request where
  cfConnectingIp : Option String
  xForwardedFor : Option String
  xRealIp : Option String
  signature : Option String
  body : String
deriving DecidableEq, Repr

/-- JavaScript `a || b` on nullable header strings: `null`/`undefined`
and the empty string are falsy. -/
def jsOrStr (a b : Option String) : Option String :=
  match a with
  | some s => if s = "" then b else some s
  | none => b

/-- `getClientIp(request)` (`middleware/auth.js`):
`cf-connecting-ip || x-forwarded-for?.split(',')[0] || x-real-ip || 'unknown'`. -/
def getClientIp (r : Request) : String :=
  match jsOrStr r.cfConnectingIp
      (jsOrStr (r.xForwardedFor.map fun s => (jsSplit ',' s).headD "")
        r.xRealIp) with
  | some s => if s = "" then "unknown" else s
  | none => "unknown"

/-- The client IP as resolved inside `validateWebhookAccess` for the
allow-list check: `cf-connecting-ip || x-forwarded-for || x-real-ip` —
the full forwarded-for value, with no first-entry split and no
`'unknown'` default (`null`, here `none`, when all three are absent). -/
def gateClientIp (r : Request) : Option String :=
  jsOrStr r.cfConnectingIp (jsOrStr r.xForwardedFor r.xRealIp)

/-- `allowedIps.includes(clientIp)`: the parsed list holds strings, so
`includes(null)` is `false`. -/
def gateIpMember (ips : List String) (clientIp : Option String) : Bool :=
  match clientIp with
  | some ip => ips.contains ip
  | none => false

/-- `webhook.expires_at && new Date(webhook.expires_at) < new Date()`. -/
def expiryRejects (w : WebhookRow) (now : Int) : Bool :=
  match w.expires_at with
  | some t => decide (t < now)
  | none => false

/-- `webhook.max_uses && webhook.trigger_count >= webhook.max_uses`:
`max_uses` of `null` — or `0`, which is equally falsy — disables the
check. -/
def usageRejects (w : WebhookRow) (trigger_count : Nat) : Bool :=
  match w.max_uses with
  | some m => decide (m ≠ 0) && decide (m ≤ trigger_count)
  | none => false

/-- The `allowed_ips` stage: only a set (truthy) column is parsed, and
only a non-empty list restricts. -/
def ipRejects (w : WebhookRow) (r : Request) : Bool :=
  match w.allowed_ips with
  | some ips => !ips.isEmpty && !gateIpMember ips (gateClientIp r)
  | none => false

inductive GateReject where
  | notFound
  | expired
  | usageExceeded
  | ipDenied
  | signatureRequired
  | signatureInvalid
deriving DecidableEq, Repr

inductive GateResult where
  | rejected (r : GateReject)
  | accepted (w : WebhookRow)
  | thrown
deriving DecidableEq, Repr

/-- HTTP status of each rejection response. -/
def rejectStatus : GateReject → Nat
  | .notFound => 404
  | .expired => 410
  | .usageExceeded => 429
  | .ipDenied => 403
  | .signatureRequired => 401
  | .signatureInvalid => 401

/-- The webhook-secret HMAC stage: an unset (falsy) secret skips the
check; a missing or empty signature header is
`Webhook signature required`; `verifyHMAC` decides the rest, its
`TypeError` (`none`) escaping as an exception. -/
def signatureStage (mac : String → String → List Nat) (w : WebhookRow)
    (req : Request) : GateResult :=
  match w.webhook_secret with
  | none => .accepted w
  | some secret =>
    if secret = "" then .accepted w
    else
      match req.signature with
      | none => .rejected .signatureRequired
      | some sig =>
        if sig = "" then .rejected .signatureRequired
        else
          match verifyHMAC mac req.body sig secret with
          | none => .thrown
          | some true => .accepted w
          | some false => .rejected .signatureInvalid

/-- `validateWebhookAccess`: lookup → expiry → usage → IP allow-list →
signature.  The optional authentication step that follows never
rejects (it only attaches a user) and is elided.  `.thrown` models an
exception escaping the chain. -/
def validateWebhookAccess (mac : String → String → List Nat)
    (lookup : Option WebhookRow) (trigger_count : Nat) (now : Int)
    (req : Request) : GateResult :=
  match lookup with
  | none => .rejected .notFound
  | some w =>
    if expiryRejects w now then .rejected .expired
    else if usageRejects w trigger_count then .rejected .usageExceeded
    else if ipRejects w req then .rejected .ipDenied
    else signatureStage mac w req

/-! ## Trigger orchestrator and recording

`handleWebhookRequestV2` (`handlers/webhook_v2.js`) with the
`webhook_executions` insert trigger `update_shortcut_trigger_count`
(`schema.sql` / schema v2) and the `audit_log` appends. -/

inductive ExecStatus where
  | success
  | failed
  | pending
  | unauthorized
deriving DecidableEq, Repr

/-- A `webhook_executions` row (the columns the claims speak about). -/
structure Execution where
  webhook_id : String
  status : ExecStatus
  response_time_ms : Nat
deriving DecidableEq, Repr

/-- The per-webhook persistent state touched by one trigger attempt. -/
structure WebhookState where
  trigger_count : Nat
  last_triggered : Option Int
  executions : List Execution
  audits : List String
deriving DecidableEq, Repr

/-- INSERT into `webhook_executions` plus the schema trigger
`update_shortcut_trigger_count`: a row with `status = 'success'`
increments the shortcut's `trigger_count` by exactly 1 and sets
`last_triggered` to the row's `executed_at`; any other status leaves
both untouched. -/
def insertExecution (st : WebhookState) (e : Execution)
    (executedAt : Int) : WebhookState :=
  { st with
    executions := st.executions ++ [e]
    trigger_count :=
      if e.status = .success then st.trigger_count + 1 else st.trigger_count
    last_triggered :=
      if e.status = .success then some executedAt else st.last_triggered }

/-- INSERT into `audit_log` (`createAuditLog` / `logAudit`), recorded
by its action tag. -/
def appendAudit (st : WebhookState) (action : String) : WebhookState :=
  { st with audits := st.audits ++ [action] }

structure TriggerOutcome where
  status : Nat
  dispatched : Bool
  state : WebhookState
deriving DecidableEq, Repr

/-- `handleWebhookRequestV2(request, env, webhookId)`: gate →
payload-size check → rate limit → decrypt → dispatch → record.
External effects are inputs: `payloadSize` is
`JSON.stringify(payload).length`; `rateRow`/`maxRequests` the
rate-limit row and limit for the chosen identifier; `dispatch` the
outcome of the decrypt-and-push phase (`none`: `decryptData` threw
before the push was attempted, landing in the handler's catch block;
`some ok`: `sendPushNotification` was invoked and returned
`success = ok` — it catches its own errors); `responseTime` the
measured elapsed time. -/
def handleWebhookRequestV2 (mac : String → String → List Nat)
    (lookup : Option WebhookRow) (req : Request) (now : Int)
    (payloadSize : Nat) (rateRow : Option Nat) (maxRequests : Int)
    (dispatch : Option Bool) (responseTime : Nat)
    (st : WebhookState) : TriggerOutcome :=
  match validateWebhookAccess mac lookup st.trigger_count now req with
  | .thrown =>
    { status := 500, dispatched := false
      state := appendAudit st "webhook_trigger_error" }
  | .rejected r =>
    { status := rejectStatus r, dispatched := false
      state := appendAudit st "webhook_trigger_unauthorized" }
  | .accepted w =>
    if 4096 < payloadSize then
      { status := 413, dispatched := false, state := st }
    else if !(checkRateLimit rateRow maxRequests).1.allowed then
      { status := 429, dispatched := false
        state := appendAudit st "webhook_trigger_rate_limited" }
    else
      match dispatch with
      | none =>
        { status := 500, dispatched := false
          state := appendAudit st "webhook_trigger_error" }
      | some ok =>
        let st1 := insertExecution st
          ⟨w.webhook_id, if ok then .success else .failed, responseTime⟩ now
        let st2 := appendAudit st1 "webhook_trigger"
        { status := if ok then 200 else 500, dispatched := true
          state := st2 }

/-! ## Concrete fixtures -/

def emptyReq : Request := ⟨none, none, none, none, ""⟩

/-- A request whose only IP evidence is a two-entry forwarded-for
header. -/
def reqFwd : Request := ⟨none, some "1.2.3.4, 5.6.7.8", none, none, ""⟩

/-- An unrestricted webhook. -/
def wOpen : WebhookRow := ⟨"wh0", none, none, none, none⟩

/-- A webhook with `max_uses = 0`. -/
def wMaxZero : WebhookRow := ⟨"wh1", none, some 0, none, none⟩

/-- A webhook that expired at time 10. -/
def wExpired : WebhookRow := ⟨"wh2", some 10, none, none, none⟩

/-- A webhook restricted to one allowed IP. -/
def wIpList : WebhookRow := ⟨"wh3", none, none, some ["1.2.3.4"], none⟩

/-- A webhook whose allow-list holds the literal string `unknown`. -/
def wUnknownIp : WebhookRow := ⟨"wh4", none, none, some ["unknown"], none⟩

def st0 : WebhookState := ⟨0, none, [], []⟩

def st3 : WebhookState := ⟨3, none, [], []⟩

/-- A webhook with `max_uses = 2`. -/
def wCapTwo : WebhookRow := ⟨"wh5", none, some 2, none, none⟩

def stOne : WebhookState := ⟨1, none, [], []⟩

end Webcuts

namespace Webcuts

/-! ## Theorems: rate limiter claims -/

/-- C3: with `maxRequests = 10` and a 1-minute window, starting with no
rows for the identifier, ten sequential calls in minute 0 are all allowed
with remaining 9, 8, …, 0; the eleventh call in the same window is denied
with remaining 0; and the first call in the next window (minute 1) is
allowed again. -/
theorem checkRateLimit_window_scenario :
    runRateCalls RateStore.empty
        [0, 0, 0, 0, 0, 0, 0, 0, 0, 0, 0, 1] 1 10 =
      [⟨true, 9⟩, ⟨true, 8⟩, ⟨true, 7⟩, ⟨true, 6⟩, ⟨true, 5⟩,
       ⟨true, 4⟩, ⟨true, 3⟩, ⟨true, 2⟩, ⟨true, 1⟩, ⟨true, 0⟩,
       ⟨false, 0⟩, ⟨true, 9⟩] := by
  decide

/-- C10: the first `checkRateLimit` call in a window (no row yet) is
always allowed — the insert path never consults `maxRequests` — and
returns `remaining = maxRequests - 1`; in particular with
`maxRequests = 0` the first call is allowed with `remaining = -1`. -/
theorem checkRateLimit_first_call (maxRequests : Int) :
    checkRateLimit none maxRequests =
        ({ allowed := true, remaining := maxRequests - 1 }, some 1) ∧
      (checkRateLimit none 0).1 = { allowed := true, remaining := -1 } := by
  exact ⟨rfl, rfl⟩

/-! ## Theorems: analytics claim -/

/-- C9: every analytics row maintained by `updateAnalytics` satisfies
`trigger_count = success_count + failure_count` after every call, in
both the first-event insert branch and the subsequent-event update
branch, for both service versions. -/
theorem updateAnalytics_preserves_inv (existing : Option AnalyticsRow)
    (success : Bool) (responseTime : Nat)
    (h : ∀ r, existing = some r → analyticsInv r) :
    analyticsInv (updateAnalyticsV2 existing success responseTime) ∧
      analyticsInv (updateAnalyticsV1 existing success responseTime) := by
  cases existing with
  | none =>
    cases success <;> simp [updateAnalyticsV2, updateAnalyticsV1, analyticsInv]
  | some r =>
    have hr := h r rfl
    unfold analyticsInv at hr
    cases success <;>
      simp [updateAnalyticsV2, updateAnalyticsV1, analyticsInv] <;> omega

/-- Witness for C9: a concrete row satisfying the invariant keeps it in
both branches. -/
theorem updateAnalytics_preserves_inv_witness :
    analyticsInv (updateAnalyticsV2 (some ⟨3, 2, 1, 7⟩) true 5) ∧
      analyticsInv (updateAnalyticsV1 (some ⟨3, 2, 1, 7⟩) true 5) :=
  updateAnalytics_preserves_inv (some ⟨3, 2, 1, 7⟩) true 5
    (by intro r hr; cases hr; decide)

/-! ## Lemmas on the chunk parser -/

theorem chunkPairs_length : ∀ (cs : List Char),
    (chunkPairs cs).length = cs.length / 2
  | [] => rfl
  | [_] => by simp [chunkPairs]
  | _ :: _ :: rest => by
      have ih := chunkPairs_length rest
      simp only [chunkPairs, List.length_cons]
      omega

theorem jsMatchPairs_of_ge2 : ∀ (cs : List Char), 2 ≤ cs.length →
    jsMatchPairs cs = some (chunkPairs cs)
  | [], h => by simp at h
  | [_], h => by simp at h
  | _ :: _ :: _, _ => by simp [jsMatchPairs, chunkPairs]

/-! ## Lemmas: hex round trip -/

set_option maxRecDepth 4000 in
/-- `parseInt` inverts `toString(16).padStart(2, '0')` on bytes. -/
theorem jsChunkByte_byteToHex : ∀ b, b < 256 →
    jsChunkByte (hexCharJS (b / 16), hexCharJS (b % 16)) = b := by
  decide

theorem hexToBytesChars_bytesToHexChars : ∀ (bs : List Nat),
    (∀ b ∈ bs, b < 256) → hexToBytesChars (bytesToHexChars bs) = bs
  | [], _ => rfl
  | b :: bs, h => by
      have hb : b < 256 := h b (List.mem_cons_self _ _)
      have ih := hexToBytesChars_bytesToHexChars bs
        (fun x hx => h x (List.mem_cons_of_mem _ hx))
      simp only [bytesToHexChars, List.map_cons, List.flatten_cons, byteToHex,
        List.cons_append, List.append_eq, List.nil_append, hexToBytesChars,
        chunkPairs, List.map_cons] at ih ⊢
      rw [jsChunkByte_byteToHex b hb, ih]

theorem hexToBytes_bytesToHex (bs : List Nat) (h : ∀ b ∈ bs, b < 256) :
    hexToBytes (bytesToHex bs) = bs :=
  hexToBytesChars_bytesToHexChars bs h

/-! ## Theorems: encryption round trip claim -/

/-- C8: for every key, plaintext and fresh 12-byte IV, `decryptData`
inverts `encryptData` (given the AES-GCM decrypt/encrypt round trip of
the underlying cipher); and on a blob whose IV/ciphertext the cipher
rejects (tampered data or wrong key), `decryptData` returns the
decryption failure rather than any partial data. -/
theorem encryptData_decryptData_roundtrip
    (A : AEAD) (key : String) (iv plaintext blob2 : List Nat)
    (hlen : iv.length = 12)
    (hbytes : ∀ b ∈ iv ++ A.enc (hexToBytes key) iv plaintext, b < 256)
    (hRT : A.dec (hexToBytes key) iv (A.enc (hexToBytes key) iv plaintext) =
      some plaintext)
    (hbytes2 : ∀ b ∈ blob2, b < 256)
    (htamper : A.dec (hexToBytes key) (blob2.take 12) (blob2.drop 12) = none) :
    decryptData A (encryptData A plaintext key iv) key = some plaintext ∧
      decryptData A (bytesToHex blob2) key = none := by
  constructor
  · unfold decryptData encryptData
    simp only [hexToBytes_bytesToHex _ hbytes, ← hlen, List.take_left,
      List.drop_left]
    exact hRT
  · unfold decryptData
    simp only [hexToBytes_bytesToHex blob2 hbytes2]
    exact htamper

/-- Witness for C8: a concrete key, IV, plaintext and a tampered blob
under the concrete authenticated cipher. -/
theorem encryptData_decryptData_roundtrip_witness :
    decryptData toyAEAD
        (encryptData toyAEAD [1, 2] "00" (List.replicate 12 0)) "00" =
      some [1, 2] ∧
      decryptData toyAEAD (bytesToHex (List.replicate 12 0 ++ [5])) "00" =
        none :=
  encryptData_decryptData_roundtrip toyAEAD "00" (List.replicate 12 0)
    [1, 2] (List.replicate 12 0 ++ [5])
    (by decide) (by decide) (by decide) (by decide) (by decide)

/-! ## Theorems: verifyHMAC claim -/

/-- Counterexample for C5: `verifyHMAC` does not always return a
boolean: on an empty signature string, `signature.match(/.{2}/g)` is
`null` and `null.map` raises an uncaught `TypeError` (modelled as
`none`) instead of returning `false`. -/
theorem verifyHMAC_empty_signature_throws :
    verifyHMAC constMac32 "hello" "" "secret" = none := by
  decide

/-- C5 (amended): for every signature of at least 2 characters the
parse succeeds, so `verifyHMAC` returns a boolean without throwing; a
signature whose length is not 64 or 65 parses to a byte count different
from the 32-byte MAC, so the comparison fails closed with `false`.
(Signatures of fewer than 2 characters instead raise an uncaught
`TypeError`.) -/
theorem verifyHMAC_length_mismatch_fails_closed
    (mac : String → String → List Nat) (message signature secret : String)
    (h2 : 2 ≤ signature.length)
    (hml : (mac secret message).length = 32)
    (h64 : signature.length ≠ 64) (h65 : signature.length ≠ 65) :
    verifyHMAC mac message signature secret = some false := by
  have hdl : signature.data.length = signature.length := rfl
  unfold verifyHMAC
  rw [jsMatchPairs_of_ge2 signature.data (by omega)]
  have hne : (chunkPairs signature.data).map jsChunkByte ≠ mac secret message := by
    intro he
    have hlen := congrArg List.length he
    rw [List.length_map, chunkPairs_length, hml] at hlen
    omega
  simp [hne]

/-- Witness for the amended C5: a 4-character signature against a
32-byte MAC returns `false` without throwing. -/
theorem verifyHMAC_length_mismatch_witness :
    verifyHMAC constMac32 "msg" "aabb" "sec" = some false :=
  verifyHMAC_length_mismatch_fails_closed constMac32 "msg" "aabb" "sec"
    (by decide) (by decide) (by decide) (by decide)

/-! ## Theorems: verifyPassword claim -/

/-- Counterexample for C6: a malformed stored hash whose algorithm tag
IS the recognized `pbkdf2` but whose salt component is empty does not
return `false`: `''.match(/.{2}/g)` is `null` and `null.map` raises an
uncaught `TypeError` (modelled as `.error .typeError`), which is not
the unrecognized-algorithm error the claim excepts. -/
theorem verifyPassword_empty_salt_throws :
    verifyPassword zeroKdf "pw" "pbkdf2:" = .error .typeError := by
  rfl

/-- C6 (amended): `verifyPassword` returns a boolean (failing closed on
any digest mismatch, including malformed hex, which parses leniently)
whenever the algorithm tag is `pbkdf2` and the salt component is
present with at least 2 characters; an unrecognized algorithm tag
raises `Unsupported hash algorithm`, and a missing, empty, or
single-character salt raises an uncaught `TypeError` instead of
returning `false`. -/
theorem verifyPassword_wellformed_no_throw
    (kdf : String → List Nat → List Nat) (password storedHash saltHex : String)
    (h0 : (jsSplit ':' storedHash).headD "" = "pbkdf2")
    (h1 : (jsSplit ':' storedHash)[1]? = some saltHex)
    (h2 : 2 ≤ saltHex.length) :
    verifyPassword kdf password storedHash =
      .ok (decide ((jsSplit ':' storedHash)[2]? =
        some (bytesToHex (kdf password
          ((chunkPairs saltHex.data).map jsChunkByte))))) := by
  unfold verifyPassword
  simp only [h0, h1, jsMatchPairs_of_ge2 saltHex.data h2, if_pos]

/-- Witness for the amended C6: a concrete `pbkdf2` hash with a
2-byte salt returns a boolean via the digest comparison. -/
theorem verifyPassword_wellformed_witness :
    verifyPassword zeroKdf "pw" "pbkdf2:00ff" =
      .ok (decide ((jsSplit ':' "pbkdf2:00ff")[2]? =
        some (bytesToHex (zeroKdf "pw"
          ((chunkPairs ("00ff").data).map jsChunkByte))))) :=
  verifyPassword_wellformed_no_throw zeroKdf "pw" "pbkdf2:00ff" "00ff"
    (by decide) (by decide) (by decide)

/-! ## Lemmas on the gate -/

/-- The signature stage never produces an IP rejection. -/
theorem signatureStage_ne_ipDenied (mac : String → String → List Nat)
    (w : WebhookRow) (req : Request) :
    signatureStage mac w req ≠ .rejected .ipDenied := by
  unfold signatureStage
  repeat' split
  all_goals simp

/-- Inverting an accepted gate run: the webhook was found and the
usage check evaluated false against the current `trigger_count`. -/
theorem gate_accepted_inv (mac : String → String → List Nat)
    (lookup : Option WebhookRow) (tc : Nat) (now : Int) (req : Request)
    (w' : WebhookRow)
    (hg : validateWebhookAccess mac lookup tc now req = .accepted w') :
    lookup = some w' ∧ usageRejects w' tc = false := by
  cases lookup with
  | none => simp [validateWebhookAccess] at hg
  | some w =>
    unfold validateWebhookAccess at hg
    simp only at hg
    split at hg
    · simp at hg
    · split at hg
      · simp at hg
      · split at hg
        · simp at hg
        · rename_i hexp husage hip
          unfold signatureStage at hg
          have hww : w = w' := by
            repeat' split at hg
            all_goals simp_all
          subst hww
          exact ⟨rfl, by simpa using husage⟩

/-! ## Theorems: expired webhook claim -/

/-- C7: a trigger request to a found webhook whose `expires_at` is set
and in the past returns HTTP 410 (Gone) and the push-notification
dispatch is never invoked. -/
theorem expired_webhook_gone (mac : String → String → List Nat)
    (lookup : Option WebhookRow) (req : Request) (now : Int)
    (payloadSize : Nat) (rateRow : Option Nat) (maxRequests : Int)
    (dispatch : Option Bool) (responseTime : Nat) (st : WebhookState)
    (w : WebhookRow) (t : Int)
    (hlk : lookup = some w) (ht : w.expires_at = some t) (hpast : t < now) :
    (handleWebhookRequestV2 mac lookup req now payloadSize rateRow
        maxRequests dispatch responseTime st).status = 410 ∧
      (handleWebhookRequestV2 mac lookup req now payloadSize rateRow
        maxRequests dispatch responseTime st).dispatched = false := by
  subst hlk
  have hexp : expiryRejects w now = true := by
    simp [expiryRejects, ht, hpast]
  simp [handleWebhookRequestV2, validateWebhookAccess, hexp, rejectStatus]

/-- Witness for C7: a concrete webhook expired at time 10, triggered
at time 100. -/
theorem expired_webhook_gone_witness :
    (handleWebhookRequestV2 constMac32 (some wExpired) emptyReq 100 0
        none 10 (some true) 5 st0).status = 410 ∧
      (handleWebhookRequestV2 constMac32 (some wExpired) emptyReq 100 0
        none 10 (some true) 5 st0).dispatched = false :=
  expired_webhook_gone constMac32 (some wExpired) emptyReq 100 0 none 10
    (some true) 5 st0 wExpired 10 rfl rfl (by decide)

/-! ## Theorems: IP allow-list claim -/

/-- Counterexample for C4: the gate does not resolve the caller IP the
way the claim says.  With `x-forwarded-for: "1.2.3.4, 5.6.7.8"` and
allow-list `["1.2.3.4"]`, the claimed resolution (first forwarded-for
entry) is `"1.2.3.4"`, which is in the list — yet the gate rejects
with IP-denied, because it compares the unsplit header value.  And
with no IP headers at all and allow-list `["unknown"]`, the claimed
default `"unknown"` is in the list — yet the gate rejects, because it
uses `null`, not `"unknown"`. -/
theorem ipCheck_counterexample :
    validateWebhookAccess constMac32 (some wIpList) 0 0 reqFwd =
        .rejected .ipDenied ∧
      getClientIp reqFwd = "1.2.3.4" ∧
      "1.2.3.4" ∈ ["1.2.3.4"] ∧
      validateWebhookAccess constMac32 (some wUnknownIp) 0 0 emptyReq =
        .rejected .ipDenied ∧
      getClientIp emptyReq = "unknown" ∧
      "unknown" ∈ ["unknown"] := by
  decide

/-- C4 (amended): when the `allowed_ips` column is set and the earlier
checks pass, the gate rejects with IP-denied exactly when the parsed
list is non-empty and does not contain the raw header resolution
`cf-connecting-ip || x-forwarded-for || x-real-ip` (full header value,
no first-entry split, `null` — matching nothing — when all three are
absent). -/
theorem ipCheck_characterization (mac : String → String → List Nat)
    (req : Request) (now : Int) (tc : Nat) (w : WebhookRow)
    (ips : List String)
    (hexp : expiryRejects w now = false)
    (husage : usageRejects w tc = false)
    (hips : w.allowed_ips = some ips) :
    validateWebhookAccess mac (some w) tc now req = .rejected .ipDenied ↔
      ips ≠ [] ∧ gateIpMember ips (gateClientIp req) = false := by
  unfold validateWebhookAccess
  dsimp only
  rw [hexp, husage]
  simp only [Bool.false_eq_true, if_false]
  by_cases hip : ipRejects w req
  · rw [if_pos hip]
    unfold ipRejects at hip
    rw [hips] at hip
    simp only [Bool.and_eq_true, Bool.not_eq_true'] at hip
    simp [hip.1, hip.2, List.isEmpty_eq_false_iff_exists_mem]
    intro he
    subst he
    simp at hip
  · rw [if_neg hip]
    unfold ipRejects at hip
    rw [hips] at hip
    simp only [Bool.and_eq_true, Bool.not_eq_true', not_and] at hip
    constructor
    · intro hc
      exact absurd hc (signatureStage_ne_ipDenied mac w req)
    · rintro ⟨hne, hmem⟩
      exfalso
      have : ips.isEmpty = true := by
        by_contra hie
        have := hip (by simpa using hie)
        simp [hmem] at this
      simp [List.isEmpty_iff] at this
      exact hne this

/-- Witness for the amended C4: the concrete forwarded-for request
against the concrete one-entry allow-list. -/
theorem ipCheck_characterization_witness :
    (validateWebhookAccess constMac32 (some wIpList) 0 0 reqFwd =
        .rejected .ipDenied ↔
      (["1.2.3.4"] : List String) ≠ [] ∧
        gateIpMember ["1.2.3.4"] (gateClientIp reqFwd) = false) :=
  ipCheck_characterization constMac32 reqFwd 0 0 wIpList ["1.2.3.4"]
    (by decide) (by decide) (by decide)

/-! ## Theorems: execution recording claim -/

/-- Counterexample for C2: a gate-rejected trigger attempt (here an
expired webhook) appends no `webhook_executions` row at all — in
particular none with status `unauthorized` — writing only an
`audit_log` entry. -/
theorem execution_recording_counterexample :
    (handleWebhookRequestV2 constMac32 (some wExpired) emptyReq 100 0
        none 10 none 5 st0).state.executions = [] ∧
      (handleWebhookRequestV2 constMac32 (some wExpired) emptyReq 100 0
        none 10 none 5 st0).status = 410 ∧
      (handleWebhookRequestV2 constMac32 (some wExpired) emptyReq 100 0
        none 10 none 5 st0).state.audits =
        ["webhook_trigger_unauthorized"] := by
  decide

/-- C2 (amended): a `webhook_executions` row is appended only on
attempts that pass the gate, the payload-size check and the rate
limit, and where the decrypt phase did not throw: exactly one row,
with status `success` or `failed` according to the dispatch result.  A
gate-rejected attempt appends no execution row — the gate outcome is
recorded as an `audit_log` entry tagged
`webhook_trigger_unauthorized` instead (no `unauthorized` execution
status is ever written). -/
theorem execution_recording (mac : String → String → List Nat)
    (lookup₁ : Option WebhookRow) (req₁ : Request) (now₁ : Int)
    (ps₁ : Nat) (rr₁ : Option Nat) (mr₁ : Int) (dispatch₁ : Option Bool)
    (rt₁ : Nat) (st₁ : WebhookState) (r : GateReject)
    (lookup₂ : Option WebhookRow) (req₂ : Request) (now₂ : Int)
    (ps₂ : Nat) (rr₂ : Option Nat) (mr₂ : Int) (ok : Bool) (rt₂ : Nat)
    (st₂ : WebhookState) (w : WebhookRow)
    (hrej : validateWebhookAccess mac lookup₁ st₁.trigger_count now₁ req₁ =
      .rejected r)
    (hacc : validateWebhookAccess mac lookup₂ st₂.trigger_count now₂ req₂ =
      .accepted w)
    (hps : ps₂ ≤ 4096)
    (hrl : (checkRateLimit rr₂ mr₂).1.allowed = true) :
    (handleWebhookRequestV2 mac lookup₁ req₁ now₁ ps₁ rr₁ mr₁ dispatch₁
        rt₁ st₁).state.executions = st₁.executions ∧
      (handleWebhookRequestV2 mac lookup₁ req₁ now₁ ps₁ rr₁ mr₁ dispatch₁
        rt₁ st₁).state.audits =
        st₁.audits ++ ["webhook_trigger_unauthorized"] ∧
      (handleWebhookRequestV2 mac lookup₂ req₂ now₂ ps₂ rr₂ mr₂ (some ok)
        rt₂ st₂).state.executions =
        st₂.executions ++
          [⟨w.webhook_id, if ok then .success else .failed, rt₂⟩] := by
  refine ⟨?_, ?_, ?_⟩
  · unfold handleWebhookRequestV2
    rw [hrej]
    simp [appendAudit]
  · unfold handleWebhookRequestV2
    rw [hrej]
    simp [appendAudit]
  · unfold handleWebhookRequestV2
    rw [hacc]
    dsimp only
    rw [if_neg (by omega)]
    rw [if_neg (by simp [hrl])]
    simp [insertExecution, appendAudit]

/-- Witness for the amended C2: a rejected attempt (expired webhook)
and an accepted, successfully dispatched attempt against concrete
fixtures. -/
theorem execution_recording_witness :
    (handleWebhookRequestV2 constMac32 (some wExpired) emptyReq 100 7
        none 10 (some true) 5 st0).state.executions = st0.executions ∧
      (handleWebhookRequestV2 constMac32 (some wExpired) emptyReq 100 7
        none 10 (some true) 5 st0).state.audits =
        st0.audits ++ ["webhook_trigger_unauthorized"] ∧
      (handleWebhookRequestV2 constMac32 (some wOpen) emptyReq 0 7 none
        10 (some true) 5 st0).state.executions =
        st0.executions ++
          [⟨wOpen.webhook_id, if true then .success else .failed, 5⟩] :=
  execution_recording constMac32 (some wExpired) emptyReq 100 7 none 10
    (some true) 5 st0 .expired (some wOpen) emptyReq 0 7 none 10 true 5
    st0 wOpen (by decide) (by decide) (by decide) (by decide)

/-! ## Theorems: trigger-count claim -/

/-- Counterexample for C1: the usage cap is not enforced for
`maxUses = 0`.  The webhook has `max_uses = some 0` and
`trigger_count = 3 ≥ 0`, yet the gate does not reject — `0` is falsy
in `webhook.max_uses && …` — and a successful dispatch raises
`trigger_count` to 4 > 0, so `triggerCount` does exceed `N` for
`N = 0`. -/
theorem triggerCount_counterexample :
    wMaxZero.max_uses = some 0 ∧
      (handleWebhookRequestV2 constMac32 (some wMaxZero) emptyReq 0 0
        none 10 (some true) 5 st3).status = 200 ∧
      (handleWebhookRequestV2 constMac32 (some wMaxZero) emptyReq 0 0
        none 10 (some true) 5 st3).state.trigger_count = 4 := by
  decide

/-- C1 (amended): over any single trigger attempt — for every webhook,
whatever its `maxUses` — `triggerCount` is non-decreasing, at most one
`webhook_executions` row is appended, `triggerCount` grows by exactly
the number of appended rows with status `success`, and it changes only
by exactly +1, together with `last_triggered`, when such a `success`
row is recorded (dispatch returned success) — never on gate rejection
or dispatch failure.  For a webhook with `maxUses = N ≥ 1`, starting
from `triggerCount ≤ N`, the count never exceeds `N`, since the usage
check rejects once `triggerCount ≥ N`.  (`maxUses = 0` is falsy and
imposes no limit.) -/
theorem triggerCount_invariants (mac : String → String → List Nat)
    (lookup : Option WebhookRow) (req : Request) (now : Int)
    (payloadSize : Nat) (rateRow : Option Nat) (maxRequests : Int)
    (dispatch : Option Bool) (responseTime : Nat) (st : WebhookState)
    (w : WebhookRow) (N : Nat) :
    st.trigger_count ≤
        (handleWebhookRequestV2 mac lookup req now payloadSize rateRow
          maxRequests dispatch responseTime st).state.trigger_count ∧
      (handleWebhookRequestV2 mac lookup req now payloadSize rateRow
          maxRequests dispatch responseTime st).state.trigger_count =
        st.trigger_count +
          (((handleWebhookRequestV2 mac lookup req now payloadSize rateRow
              maxRequests dispatch responseTime st).state.executions.drop
            st.executions.length).filter
              (fun e => e.status == ExecStatus.success)).length ∧
      (handleWebhookRequestV2 mac lookup req now payloadSize rateRow
          maxRequests dispatch responseTime st).state.executions.length ≤
        st.executions.length + 1 ∧
      ((handleWebhookRequestV2 mac lookup req now payloadSize rateRow
          maxRequests dispatch responseTime st).state.trigger_count ≠
          st.trigger_count →
        (handleWebhookRequestV2 mac lookup req now payloadSize rateRow
            maxRequests dispatch responseTime st).state.trigger_count =
            st.trigger_count + 1 ∧
          ((handleWebhookRequestV2 mac lookup req now payloadSize rateRow
              maxRequests dispatch responseTime st).state.executions.drop
            st.executions.length).map Execution.status =
            [ExecStatus.success] ∧
          (handleWebhookRequestV2 mac lookup req now payloadSize rateRow
            maxRequests dispatch responseTime st).state.last_triggered =
            some now ∧
          dispatch = some true) ∧
      (lookup = some w → w.max_uses = some N → 0 < N →
        st.trigger_count ≤ N →
        (handleWebhookRequestV2 mac lookup req now payloadSize rateRow
          maxRequests dispatch responseTime st).state.trigger_count ≤ N) := by
  cases hg : validateWebhookAccess mac lookup st.trigger_count now req with
  | thrown =>
    unfold handleWebhookRequestV2
    rw [hg]
    dsimp only
    exact ⟨le_rfl, by simp [appendAudit, List.drop_length],
      by simp [appendAudit], fun h => absurd rfl h,
      fun _ _ _ hle => hle⟩
  | rejected r =>
    unfold handleWebhookRequestV2
    rw [hg]
    dsimp only
    exact ⟨le_rfl, by simp [appendAudit, List.drop_length],
      by simp [appendAudit], fun h => absurd rfl h,
      fun _ _ _ hle => hle⟩
  | accepted w' =>
    obtain ⟨hlk', husage⟩ :=
      gate_accepted_inv mac lookup st.trigger_count now req w' hg
    have hlt : lookup = some w → w.max_uses = some N → 0 < N →
        st.trigger_count < N := by
      intro hlk hN hpos
      rw [hlk] at hlk'
      injection hlk' with hww
      subst hww
      unfold usageRejects at husage
      rw [hN] at husage
      simp at husage
      omega
    unfold handleWebhookRequestV2
    rw [hg]
    dsimp only
    by_cases hp : 4096 < payloadSize
    · rw [if_pos hp]
      exact ⟨le_rfl, by simp [List.drop_length], by simp,
        fun h => absurd rfl h, fun _ _ _ hle => hle⟩
    · rw [if_neg hp]
      by_cases hrl : (checkRateLimit rateRow maxRequests).1.allowed
      · rw [if_neg (by simp [hrl])]
        cases dispatch with
        | none =>
          exact ⟨le_rfl, by simp [appendAudit, List.drop_length],
            by simp [appendAudit], fun h => absurd rfl h,
            fun _ _ _ hle => hle⟩
        | some ok =>
          cases ok with
          | true =>
            refine ⟨Nat.le_succ _, ?_, ?_,
              fun _ => ⟨rfl, ?_, rfl, rfl⟩,
              fun hlk hN hpos _ => hlt hlk hN hpos⟩
            · simp [insertExecution, appendAudit, List.drop_left]
            · simp [insertExecution, appendAudit]
            · simp [insertExecution, appendAudit, List.drop_left]
          | false =>
            refine ⟨le_rfl, ?_, ?_, fun h => absurd rfl h,
              fun _ _ _ hle => hle⟩
            · simp [insertExecution, appendAudit, List.drop_left]
            · simp [insertExecution, appendAudit]
      · rw [if_pos (by simp [Bool.not_eq_true] at hrl; simp [hrl])]
        exact ⟨le_rfl, by simp [appendAudit, List.drop_length],
          by simp [appendAudit], fun h => absurd rfl h,
          fun _ _ _ hle => hle⟩

/-- Witness for the amended C1: a concrete webhook with `maxUses = 2`
at `triggerCount = 1`, successfully triggered; the +1-only-on-success
clause and the never-exceeds-N bound are discharged at this input. -/
theorem triggerCount_invariants_witness :
    stOne.trigger_count ≤
        (handleWebhookRequestV2 constMac32 (some wCapTwo) emptyReq 0 0
          none 10 (some true) 5 stOne).state.trigger_count ∧
      (handleWebhookRequestV2 constMac32 (some wCapTwo) emptyReq 0 0
          none 10 (some true) 5 stOne).state.trigger_count =
        stOne.trigger_count +
          (((handleWebhookRequestV2 constMac32 (some wCapTwo) emptyReq 0
              0 none 10 (some true) 5 stOne).state.executions.drop
            stOne.executions.length).filter
              (fun e => e.status == ExecStatus.success)).length ∧
      (handleWebhookRequestV2 constMac32 (some wCapTwo) emptyReq 0 0
          none 10 (some true) 5 stOne).state.executions.length ≤
        stOne.executions.length + 1 ∧
      ((handleWebhookRequestV2 constMac32 (some wCapTwo) emptyReq 0 0
          none 10 (some true) 5 stOne).state.trigger_count =
          stOne.trigger_count + 1 ∧
        ((handleWebhookRequestV2 constMac32 (some wCapTwo) emptyReq 0 0
            none 10 (some true) 5 stOne).state.executions.drop
          stOne.executions.length).map Execution.status =
          [ExecStatus.success] ∧
        (handleWebhookRequestV2 constMac32 (some wCapTwo) emptyReq 0 0
          none 10 (some true) 5 stOne).state.last_triggered = some 0 ∧
        (some true : Option Bool) = some true) ∧
      (handleWebhookRequestV2 constMac32 (some wCapTwo) emptyReq 0 0
        none 10 (some true) 5 stOne).state.trigger_count ≤ 2 := by
  have h := triggerCount_invariants constMac32 (some wCapTwo) emptyReq 0
    0 none 10 (some true) 5 stOne wCapTwo 2
  exact ⟨h.1, h.2.1, h.2.2.1, h.2.2.2.1 (by decide),
    h.2.2.2.2 rfl rfl (by decide) (by decide)⟩

end Webcuts
